import Mathlib

/-!
Verification of the somo connection viewer against its specification.

The CLI layer (src/cli.rs, src/main.rs) is embedded directly from the source.
The core engine (schemas.rs, connections.rs, table.rs, utils.rs) is not part of
the available sources; those components are modelled from the specification,
and each such definition is marked `Modelled from the spec:` in its doc comment.

External effects are made explicit parameters of the embedding:
the outcome of SIGTERM delivery is a function `sigOk : Int -> Bool`, and the
result of the interactive Select prompt is an `Except Unit Nat` argument.
-/

namespace Somo

/-- A user-facing console message: info (pretty_print_info) or error
(pretty_print_error) from the utils collaborator. -/
inductive Msg where
  | info (s : String)
  | error (s : String)
deriving DecidableEq, Repr

/-- Address family of a socket (spec section 3: v4 or v6). -/
inductive AddressFamily where
  | v4
  | v6
deriving DecidableEq, Repr

/-- Modelled from the spec: the public Connection record of schemas.rs (not
under src/), spec section 3 — protocol, local and remote endpoint, state,
pid (string form, may be empty/unknown), program (may be empty/unknown).
The address family is carried for the exclude-ipv6 filter. The field names
by which main.rs and cli.rs access it (pid) are kept. -/
structure Connection where
  proto : String
  family : AddressFamily
  local_address : String
  local_port : String
  remote_address : String
  remote_port : String
  state : String
  pid : String
  program : String
deriving DecidableEq, Repr

/-- cli.rs Flags: all the flag values provided by the user in the CLI.
The Rust field named open is written open' here since open is a Lean keyword. -/
structure Flags where
  kill : Bool
  proto : Option String
  ip : Option String
  remote_port : Option String
  port : Option String
  program : Option String
  pid : Option String
  open' : Bool
  listen : Bool
  exclude_ipv6 : Bool
deriving DecidableEq, Repr

/-- cli.rs Args: the clap-parsed argument set. Same fields as Flags. -/
structure Args where
  kill : Bool
  proto : Option String
  ip : Option String
  remote_port : Option String
  port : Option String
  program : Option String
  pid : Option String
  open' : Bool
  listen : Bool
  exclude_ipv6 : Bool
deriving DecidableEq, Repr

/-- The Args value clap produces when no flags are given: every option-valued
argument defaults to none and every boolean argument to false, per the arg
attributes on Args and the test_default_values test in cli.rs. -/
def defaultArgs : Args :=
  { kill := false, proto := none, ip := none, remote_port := none,
    port := none, program := none, pid := none, open' := false,
    listen := false, exclude_ipv6 := false }

/-- cli.rs cli(): wraps the parsed Args into Flags, field by field. -/
def cli (args : Args) : Flags :=
  { kill := args.kill, proto := args.proto, ip := args.ip,
    program := args.program, remote_port := args.remote_port,
    port := args.port, pid := args.pid, open' := args.open',
    listen := args.listen, exclude_ipv6 := args.exclude_ipv6 }

/-- FilterOptions of schemas.rs; the field names are those used by main.rs
when it builds the value (lines 13-23 of main.rs). -/
structure FilterOptions where
  by_proto : Option String
  by_remote_address : Option String
  by_remote_port : Option String
  by_local_port : Option String
  by_program : Option String
  by_pid : Option String
  by_open : Bool
  by_listen : Bool
  exclude_ipv6 : Bool
deriving DecidableEq, Repr

/-- main.rs lines 13-23: the FilterOptions value built from the Flags. -/
def main_filter_options (args : Flags) : FilterOptions :=
  { by_proto := args.proto, by_remote_address := args.ip,
    by_remote_port := args.remote_port, by_local_port := args.port,
    by_program := args.program, by_pid := args.pid, by_open := args.open',
    by_listen := args.listen, exclude_ipv6 := args.exclude_ipv6 }

/-- Rust str::parse::<i32>: an optional sign followed by at least one ASCII
digit, rejecting anything else and any value outside the i32 range. The
overflow check is folded into a final range check, which is equivalent since
the digit string denotes its exact value. -/
def parse_i32 (s : String) : Option Int :=
  let core : Bool × List Char :=
    match s.data with
    | '+' :: rest => (false, rest)
    | '-' :: rest => (true, rest)
    | rest => (false, rest)
  let digits := core.2
  if digits = [] then none
  else if digits.all (fun c => c.isDigit) then
    let v : Nat := digits.foldl (fun acc c => acc * 10 + (c.toNat - 48)) 0
    if core.1 then
      if v ≤ 2 ^ 31 then some (-(v : Int)) else none
    else
      if v < 2 ^ 31 then some (v : Int) else none
  else none

/-- cli.rs kill_process: sends SIGTERM to the pid. Whether the kernel accepts
the signal is the external parameter sigOk. On Ok an info message is printed,
on Err an error message; the Err is consumed, never propagated. -/
def kill_process (sigOk : Int → Bool) (pid_num : Int) : Msg :=
  if sigOk pid_num then
    Msg.info ("Killed process with PID " ++ toString pid_num ++ ".")
  else
    Msg.error ("Failed to kill process with PID " ++ toString pid_num)

/-- Observable outcome of interactve_process_kill: the out-of-bounds indexing
panic, a message printed with kill_process never invoked, or kill_process
invoked on a pid together with the message it printed. -/
inductive KillOutcome where
  | panicOOB
  | noKill (m : Msg)
  | killInvoked (pid : Int) (m : Msg)
deriving DecidableEq, Repr

/-- The option list offered by the Select prompt in interactve_process_kill:
(1..=connections.len() as u32).collect(), that is 1,2,...,len with the length
truncated to 32 bits by the as-u32 cast. -/
def promptOptions (connections : List Connection) : List Nat :=
  List.range' 1 (connections.length % 2 ^ 32)

/-- cli.rs interactve_process_kill. The prompt result is the parameter
selection (Except.error is a cancelled/failed prompt). A choice of 0 would
underflow the usize subtraction in connections[choice as usize - 1] and index
far out of bounds, hence panicOOB, as does any index past the end. -/
def interactve_process_kill (sigOk : Int → Bool) (connections : List Connection)
    (selection : Except Unit Nat) : KillOutcome :=
  match selection with
  | Except.ok 0 => KillOutcome.panicOOB
  | Except.ok (k + 1) =>
    match connections[k]? with
    | none => KillOutcome.panicOOB
    | some conn =>
      match parse_i32 conn.pid with
      | none => KillOutcome.noKill (Msg.error "Couldn\x27t find PID.")
      | some pid_num => KillOutcome.killInvoked pid_num (kill_process sigOk pid_num)
  | Except.error _ => KillOutcome.noKill (Msg.error "Process selection cancelled.")

/-- The action the Ok branch of interactve_process_kill takes on the selected
record once its pid string is in hand: parse it as an i32 and hand it to
kill_process, or print the parse-failure error and stop. -/
def act_on_pid (sigOk : Int → Bool) (pid_str : String) : KillOutcome :=
  match parse_i32 pid_str with
  | none => KillOutcome.noKill (Msg.error "Couldn\x27t find PID.")
  | some pid_num => KillOutcome.killInvoked pid_num (kill_process sigOk pid_num)

/-- Sample connection used in concrete witnesses. -/
def connSshd : Connection :=
  { proto := "tcp", family := AddressFamily.v4, local_address := "0.0.0.0",
    local_port := "22", remote_address := "0.0.0.0", remote_port := "0",
    state := "LISTEN", pid := "1", program := "sshd" }

/-- Sample connection with a parseable pid, used in concrete witnesses. -/
def connHttp : Connection :=
  { proto := "tcp", family := AddressFamily.v4, local_address := "127.0.0.1",
    local_port := "8080", remote_address := "10.0.0.5", remote_port := "443",
    state := "ESTABLISHED", pid := "1234", program := "nginx" }

/-- Sample connection whose pid is unknown (empty), used in concrete witnesses. -/
def connNoPid : Connection :=
  { proto := "udp", family := AddressFamily.v6, local_address := "::",
    local_port := "53", remote_address := "", remote_port := "",
    state := "-", pid := "", program := "" }

/-- Modelled from the spec: whether a Connection has an active remote peer
(spec 4.4, the open filter: remote endpoint non-zero/non-empty). -/
def has_remote (c : Connection) : Bool :=
  !(c.remote_port == "0" || c.remote_port == "")

/-- Modelled from the spec: the FilterEngine predicate of connections.rs (not
under src/), spec 4.4 — each present option must match, absent options impose
no constraint, remote filters never match a connection without a remote
endpoint, and exclude-ipv6 subtracts the v6 rows. All specified predicates
are ANDed together. -/
def matches_filters (opts : FilterOptions) (c : Connection) : Bool :=
  (match opts.by_proto with
   | none => true
   | some p => c.proto.toLower == p.toLower) &&
  (match opts.by_remote_address with
   | none => true
   | some a => has_remote c && c.remote_address == a) &&
  (match opts.by_remote_port with
   | none => true
   | some p => has_remote c && c.remote_port == p) &&
  (match opts.by_local_port with
   | none => true
   | some p => c.local_port == p) &&
  (match opts.by_program with
   | none => true
   | some pr => c.program == pr) &&
  (match opts.by_pid with
   | none => true
   | some p => c.pid == p) &&
  (!opts.by_open || has_remote c) &&
  (!opts.by_listen || c.state == "LISTEN") &&
  (!opts.exclude_ipv6 || !(c.family == AddressFamily.v6))

/-- Modelled from the spec: the FilterEngine pass over the resolved sequence,
producing the final visible set. -/
def filter_connections (opts : FilterOptions) (cs : List Connection) :
    List Connection :=
  cs.filter (matches_filters opts)

/-- The all-absent FilterOptions: every optional predicate absent and every
boolean predicate false. -/
def no_filter_options : FilterOptions :=
  { by_proto := none, by_remote_address := none, by_remote_port := none,
    by_local_port := none, by_program := none, by_pid := none,
    by_open := false, by_listen := false, exclude_ipv6 := false }

/-- Modelled from the spec: uppercase hexadecimal digit test for the fields
of the kernel-exposed tables (spec 4.1; the SocketTableReader source is not
under src/). -/
def is_hex_digit (c : Char) : Bool :=
  (48 ≤ c.toNat && c.toNat ≤ 57) || (65 ≤ c.toNat && c.toNat ≤ 70)

/-- Numeric value of an uppercase hex digit. -/
def hex_val (c : Char) : Nat :=
  if c.toNat ≤ 57 then c.toNat - 48 else c.toNat - 55

/-- Uppercase hex digit character for a value below 16. -/
def hex_digit_char (n : Nat) : Char :=
  if n < 10 then Char.ofNat (48 + n) else Char.ofNat (55 + n)

/-- Fixed-width big-endian hex rendering, the re-encoding direction of the
round trip. -/
def nat_to_hex : Nat → Nat → List Char
  | 0, _ => []
  | w + 1, n => nat_to_hex w (n / 16) ++ [hex_digit_char (n % 16)]

/-- Modelled from the spec: parse a big-endian hex field (spec 4.1); any
non-hex character makes the whole field malformed. -/
def hex_to_nat (l : List Char) : Option Nat :=
  l.foldl
    (fun acc c =>
      match acc with
      | none => none
      | some a => if is_hex_digit c then some (16 * a + hex_val c) else none)
    (some 0)

/-- The four bytes of a 32-bit word in little-endian order: the machine
byte-order decode of spec 4.1. -/
def bytes_le (v : Nat) : List Nat :=
  [v % 256, v / 256 % 256, v / 65536 % 256, v / 16777216 % 256]

/-- Reassemble a little-endian byte quadruple into its 32-bit word. -/
def word_le (b0 b1 b2 b3 : Nat) : Nat :=
  b0 + 256 * b1 + 65536 * b2 + 16777216 * b3

/-- Modelled from the spec: decode an 8-hex-digit IPv4 address field, stored
in machine byte order (little-endian), into its four address bytes
(spec 4.1). -/
def decode_ipv4 (s : String) : Option (Nat × Nat × Nat × Nat) :=
  if s.data.length = 8 then
    match hex_to_nat s.data with
    | some v => some (v % 256, v / 256 % 256, v / 65536 % 256, v / 16777216 % 256)
    | none => none
  else none

/-- Re-encode four IPv4 address bytes into the 8-hex-digit table field. -/
def encode_ipv4 (b : Nat × Nat × Nat × Nat) : String :=
  String.mk (nat_to_hex 8 (word_le b.1 b.2.1 b.2.2.1 b.2.2.2))

/-- Modelled from the spec: decode a 32-hex-digit IPv6 address field — four
32-bit words, each byte-order-decoded — into its 16 address bytes
(spec 4.1). -/
def decode_ipv6 (s : String) : Option (List Nat) :=
  if s.data.length = 32 then
    match hex_to_nat (s.data.take 8), hex_to_nat ((s.data.drop 8).take 8),
        hex_to_nat ((s.data.drop 16).take 8), hex_to_nat (s.data.drop 24) with
    | some v0, some v1, some v2, some v3 =>
      some (bytes_le v0 ++ bytes_le v1 ++ bytes_le v2 ++ bytes_le v3)
    | _, _, _, _ => none
  else none

/-- Re-encode 16 IPv6 address bytes into the 32-hex-digit table field. -/
def encode_ipv6 (bs : List Nat) : String :=
  match bs with
  | [b0, b1, b2, b3, b4, b5, b6, b7, b8, b9, b10, b11, b12, b13, b14, b15] =>
    String.mk (nat_to_hex 8 (word_le b0 b1 b2 b3) ++
      nat_to_hex 8 (word_le b4 b5 b6 b7) ++
      nat_to_hex 8 (word_le b8 b9 b10 b11) ++
      nat_to_hex 8 (word_le b12 b13 b14 b15))
  | _ => ""

/-- Dotted-decimal rendering of four IPv4 address bytes. -/
def format_ipv4 (b : Nat × Nat × Nat × Nat) : String :=
  toString b.1 ++ "." ++ toString b.2.1 ++ "." ++ toString b.2.2.1 ++ "." ++
    toString b.2.2.2

/-- Display rendering of 16 IPv6 address bytes. -/
def format_ipv6 (bs : List Nat) : String :=
  String.intercalate ":" (bs.map toString)

/-- Modelled from the spec: decode a 4-hex-digit port field to its host-order
number (spec 4.1). -/
def decode_port (s : String) : Option Nat :=
  if s.data.length = 4 then hex_to_nat s.data else none

/-- Re-encode a port number into the 4-hex-digit table field. -/
def encode_port (n : Nat) : String :=
  String.mk (nat_to_hex 4 n)

/-- Modelled from the spec: decode a full address:port endpoint field of a
table row into a display address and a numeric port (spec 4.1). -/
def decode_endpoint (family : AddressFamily) (s : String) : Option (String × Nat) :=
  match (s.data.splitOn ':').map String.mk with
  | [a, p] =>
    match family with
    | AddressFamily.v4 =>
      match decode_ipv4 a, decode_port p with
      | some b, some pn => some (format_ipv4 b, pn)
      | _, _ => none
    | AddressFamily.v6 =>
      match decode_ipv6 a, decode_port p with
      | some bs, some pn => some (format_ipv6 bs, pn)
      | _, _ => none
  | _ => none

/-- Modelled from the spec: an unresolved socket entry (spec section 3),
scoped to one snapshot; the handle is an opaque join key. -/
structure SocketEntry where
  proto : String
  family : AddressFamily
  local_address : String
  local_port : String
  remote_address : String
  remote_port : String
  state : String
  handle : Nat
deriving DecidableEq, Repr

/-- Modelled from the spec: the ProcessSocketIndex (spec section 3), a
mapping from socket handle to process id and program name, built fresh per
invocation. -/
abbrev ProcessSocketIndex := List (Nat × String × String)

/-- First-match lookup of a handle in the index. -/
def lookup_handle : ProcessSocketIndex → Nat → Option (String × String)
  | [], _ => none
  | (k, pid, prog) :: rest, h =>
    if k = h then some (pid, prog) else lookup_handle rest h

/-- Modelled from the spec: ConnectionResolver on one entry (spec 4.3) —
annotate with pid and program when the handle resolves in the index, leave
both empty otherwise; the entry is always kept. -/
def resolve_entry (idx : ProcessSocketIndex) (e : SocketEntry) : Connection :=
  match lookup_handle idx e.handle with
  | some (pid, prog) =>
    { proto := e.proto, family := e.family, local_address := e.local_address,
      local_port := e.local_port, remote_address := e.remote_address,
      remote_port := e.remote_port, state := e.state, pid := pid,
      program := prog }
  | none =>
    { proto := e.proto, family := e.family, local_address := e.local_address,
      local_port := e.local_port, remote_address := e.remote_address,
      remote_port := e.remote_port, state := e.state, pid := "",
      program := "" }

/-- Modelled from the spec: ConnectionResolver over the whole SocketEntry
sequence, preserving the enumeration order (spec 4.3). -/
def resolve_connections (entries : List SocketEntry)
    (idx : ProcessSocketIndex) : List Connection :=
  entries.map (resolve_entry idx)

/-- Modelled from the spec: the connection-state decode of spec 4.1 — a small
hexadecimal code mapped to a symbolic state for TCP, and the single implied
pseudo-state for UDP, which has no connection states. -/
def decode_state (proto : String) (code : Nat) : String :=
  if proto == "udp" then "-"
  else if code = 1 then "ESTABLISHED"
  else if code = 10 then "LISTEN"
  else "UNKNOWN"

/-- Decimal parse of the socket handle field (spec 4.1: a decimal integer). -/
def parse_decimal (s : String) : Option Nat :=
  if s.data ≠ [] ∧ s.data.all (fun c => 48 ≤ c.toNat && c.toNat ≤ 57) then
    some (s.data.foldl (fun acc c => 10 * acc + (c.toNat - 48)) 0)
  else none

/-- Modelled from the spec: parse one raw table row given as its
whitespace-split fields — local endpoint, remote endpoint, state code,
handle (spec 4.1). A row with missing fields or any malformed field yields
none and is skipped. -/
def parse_socket_row (proto : String) (family : AddressFamily)
    (fields : List String) : Option SocketEntry :=
  match fields with
  | [loc, rem, st, handle] =>
    match decode_endpoint family loc, decode_endpoint family rem,
        hex_to_nat st.data, parse_decimal handle with
    | some (la, lp), some (ra, rp), some code, some h =>
      some { proto := proto, family := family, local_address := la,
             local_port := toString lp, remote_address := ra,
             remote_port := toString rp, state := decode_state proto code,
             handle := h }
    | _, _, _, _ => none
  | _ => none

/-- Modelled from the spec: one raw per-protocol connection table — protocol
tag, address family and the raw rows (each already whitespace-split). -/
structure RawTable where
  proto : String
  family : AddressFamily
  rows : List (List String)

/-- Modelled from the spec: SocketTableReader on one table (spec 4.1) —
parse every row, skipping the malformed ones. -/
def read_socket_table (t : RawTable) : List SocketEntry :=
  t.rows.filterMap (parse_socket_row t.proto t.family)

/-- Modelled from the spec: one enumerated process — pid, short program name
and its open socket handles, or none when the descriptor table cannot be
read (spec 4.2). -/
structure ProcEntry where
  pid : String
  name : String
  fds : Option (List Nat)

/-- Modelled from the spec: ProcessSocketIndexer (spec 4.2) — record each
readable process against all its socket handles; a process whose descriptor
table cannot be read is silently skipped. -/
def build_index : List ProcEntry → ProcessSocketIndex
  | [] => []
  | p :: rest =>
    match p.fds with
    | none => build_index rest
    | some hs => hs.map (fun h => (h, p.pid, p.name)) ++ build_index rest

/-- Modelled from the spec: the whole engine (spec section 2, data flow
raw tables, resolved records, filtered records) — read all tables, build the
index, resolve, filter. -/
def get_all_connections (tables : List RawTable) (procs : List ProcEntry)
    (opts : FilterOptions) : List Connection :=
  filter_connections opts
    (resolve_connections ((tables.map read_socket_table).flatten)
      (build_index procs))

/-- Sample socket entry with an attributed handle, used in witnesses. -/
def entrySsh : SocketEntry :=
  { proto := "tcp", family := AddressFamily.v4, local_address := "0.0.0.0",
    local_port := "22", remote_address := "0.0.0.0", remote_port := "0",
    state := "LISTEN", handle := 100 }

/-- Sample socket entry whose handle is unattributed, used in witnesses. -/
def entryDns : SocketEntry :=
  { proto := "udp", family := AddressFamily.v4, local_address := "0.0.0.0",
    local_port := "53", remote_address := "0.0.0.0", remote_port := "0",
    state := "-", handle := 200 }

/-- Sample process-socket index attributing handle 100 only. -/
def idxSample : ProcessSocketIndex := [(100, "1", "sshd")]

/-- C1 counterexample: at a sequence of length 2 to the power 32 the as-u32
cast truncates the length to 0, so the prompt presents no index at all rather
than the 1-based indices 1..N. -/
theorem C1_counterexample :
    ¬ (promptOptions (List.replicate (2 ^ 32) connSshd) =
       List.range' 1 (List.replicate (2 ^ 32) connSshd).length) := by
  intro h
  have hl := congrArg List.length h
  simp only [promptOptions, List.length_range', List.length_replicate] at hl
  norm_num at hl

/-- C1 (amended): for every non-empty connection sequence whose length N is
below 2 to the power 32, the interactive selection of interactve_process_kill
presents exactly the 1-based indices 1..N in display order, and a successful
choice k acts on the pid field of the k-th record, connections[k-1]. -/
theorem C1_prompt_indices_and_target (sigOk : Int → Bool)
    (connections : List Connection) (hne : connections ≠ [])
    (hlen : connections.length < 2 ^ 32) :
    promptOptions connections = List.range' 1 connections.length ∧
    ∀ choice conn, choice ∈ promptOptions connections →
      connections[choice - 1]? = some conn →
      interactve_process_kill sigOk connections (Except.ok choice) =
        act_on_pid sigOk conn.pid := by
  have hmod : connections.length % 2 ^ 32 = connections.length :=
    Nat.mod_eq_of_lt hlen
  refine ⟨by simp only [promptOptions, hmod], ?_⟩
  intro choice conn hmem hget
  have hmem' : choice ∈ List.range' 1 connections.length := by
    simpa only [promptOptions, hmod] using hmem
  have hb := List.mem_range'_1.mp hmem'
  obtain ⟨k, rfl⟩ : ∃ k, choice = k + 1 := ⟨choice - 1, by omega⟩
  simp only [Nat.add_sub_cancel] at hget
  simp [interactve_process_kill, act_on_pid, hget]

/-- C1 witness: on a concrete two-element sequence the prompt offers [1, 2]
and choice 2 acts on the second record. -/
theorem C1_witness :
    promptOptions [connSshd, connHttp] = [1, 2] ∧
    interactve_process_kill (fun _ => true) [connSshd, connHttp] (Except.ok 2) =
      act_on_pid (fun _ => true) connHttp.pid := by
  have h := C1_prompt_indices_and_target (fun _ => true) [connSshd, connHttp]
    (by decide) (by decide)
  exact ⟨h.1.trans (by decide), h.2 2 connHttp (by decide) (by decide)⟩

/-- C2: when the prompt is cancelled (the selection returns an error),
interactve_process_kill reports the cancellation as a user-facing error and
returns; kill_process is never invoked, so no signal is sent. -/
theorem C2_cancel_no_kill (sigOk : Int → Bool) (connections : List Connection)
    (e : Unit) :
    interactve_process_kill sigOk connections (Except.error e) =
      KillOutcome.noKill (Msg.error "Process selection cancelled.") ∧
    ∀ pid m, interactve_process_kill sigOk connections (Except.error e) ≠
      KillOutcome.killInvoked pid m := by
  refine ⟨rfl, ?_⟩
  intro pid m h
  simp [interactve_process_kill] at h

/-- C3: kill_process always terminates with a user-facing message — an info
message when SIGTERM delivery succeeds, an error message when it fails —
and never propagates the delivery failure. -/
theorem C3_kill_process_messages (sigOk : Int → Bool) (pid_num : Int) :
    (sigOk pid_num = true →
      kill_process sigOk pid_num =
        Msg.info ("Killed process with PID " ++ toString pid_num ++ ".")) ∧
    (sigOk pid_num = false →
      kill_process sigOk pid_num =
        Msg.error ("Failed to kill process with PID " ++ toString pid_num)) := by
  constructor <;> intro h <;> simp [kill_process, h]

/-- C3 witness: both message shapes at concrete pids. -/
theorem C3_witness :
    kill_process (fun _ => true) 7 = Msg.info "Killed process with PID 7." ∧
    kill_process (fun _ => false) 7 =
      Msg.error "Failed to kill process with PID 7" := by
  constructor
  · exact ((C3_kill_process_messages (fun _ => true) 7).1 rfl).trans (by decide)
  · exact ((C3_kill_process_messages (fun _ => false) 7).2 rfl).trans (by decide)

/-- C9: for a non-empty connection vector, any choice drawn from the offered
option list satisfies 1 <= choice <= length, so the index access
connections[choice - 1] is in bounds and the panic branch is unreachable. -/
theorem C9_choice_in_bounds (sigOk : Int → Bool) (connections : List Connection)
    (choice : Nat) (hne : connections ≠ [])
    (hmem : choice ∈ promptOptions connections) :
    1 ≤ choice ∧ choice ≤ connections.length ∧
    interactve_process_kill sigOk connections (Except.ok choice) ≠
      KillOutcome.panicOOB := by
  have hmem' : choice ∈ List.range' 1 (connections.length % 2 ^ 32) := by
    simpa only [promptOptions] using hmem
  have hb := List.mem_range'_1.mp hmem'
  have hmod : connections.length % 2 ^ 32 ≤ connections.length :=
    Nat.mod_le _ _
  have h2 : choice ≤ connections.length := by omega
  refine ⟨hb.1, h2, ?_⟩
  obtain ⟨k, rfl⟩ : ∃ k, choice = k + 1 := ⟨choice - 1, by omega⟩
  have hk : k < connections.length := by omega
  have hget := List.getElem?_eq_getElem hk
  simp only [interactve_process_kill, hget]
  cases hp : parse_i32 connections[k].pid <;> simp [hp]

/-- C9 witness: on a one-element vector, choice 1 is offered, in bounds, and
does not panic. -/
theorem C9_witness :
    1 ≤ 1 ∧ 1 ≤ [connSshd].length ∧
    interactve_process_kill (fun _ => true) [connSshd] (Except.ok 1) ≠
      KillOutcome.panicOOB :=
  C9_choice_in_bounds (fun _ => true) [connSshd] 1 (by decide) (by decide)

/-- C10: when the selected record pid string does not parse as an i32 (for
instance when it is empty), interactve_process_kill prints an error and
returns without invoking kill_process; and whenever kill_process is invoked,
the invoked pid comes from a successfully parsed record pid. -/
theorem C10_unparseable_pid_no_kill (sigOk : Int → Bool)
    (connections : List Connection) (k : Nat) (conn : Connection)
    (hget : connections[k]? = some conn) (hparse : parse_i32 conn.pid = none) :
    interactve_process_kill sigOk connections (Except.ok (k + 1)) =
      KillOutcome.noKill (Msg.error "Couldn\x27t find PID.") ∧
    ∀ selection pid m,
      interactve_process_kill sigOk connections selection =
        KillOutcome.killInvoked pid m →
      ∃ j c, selection = Except.ok (j + 1) ∧ connections[j]? = some c ∧
        parse_i32 c.pid = some pid := by
  constructor
  · simp [interactve_process_kill, hget, hparse]
  · intro selection pid m h
    match selection with
    | Except.error e => simp [interactve_process_kill] at h
    | Except.ok 0 => simp [interactve_process_kill] at h
    | Except.ok (j + 1) =>
      cases hg : connections[j]? with
      | none => simp [interactve_process_kill, hg] at h
      | some c =>
        cases hp : parse_i32 c.pid with
        | none => simp [interactve_process_kill, hg, hp] at h
        | some p =>
          simp [interactve_process_kill, hg, hp] at h
          exact ⟨j, c, rfl, hg, by rw [hp, h.1]⟩

/-- C10 witness: a record with an empty pid leads to the error message and no
kill invocation. -/
theorem C10_witness :
    interactve_process_kill (fun _ => true) [connNoPid] (Except.ok 1) =
      KillOutcome.noKill (Msg.error "Couldn\x27t find PID.") :=
  (C10_unparseable_pid_no_kill (fun _ => true) [connNoPid] 0 connNoPid
    (by decide) (by decide)).1

/-- C4: the FilterOptions handed to the core is built field-by-field verbatim
from the parsed CLI flags, and when no flags are given every optional
predicate is none and every boolean predicate is false. -/
theorem C4_filter_options_verbatim (args : Args) :
    main_filter_options (cli args) =
      { by_proto := args.proto, by_remote_address := args.ip,
        by_remote_port := args.remote_port, by_local_port := args.port,
        by_program := args.program, by_pid := args.pid, by_open := args.open',
        by_listen := args.listen, exclude_ipv6 := args.exclude_ipv6 } ∧
    (args = defaultArgs → main_filter_options (cli args) = no_filter_options) := by
  refine ⟨rfl, ?_⟩
  intro h
  subst h
  rfl

/-- C4 witness: with the default (flagless) arguments, every FilterOptions
field is absent or false. -/
theorem C4_witness :
    main_filter_options (cli defaultArgs) = no_filter_options :=
  (C4_filter_options_verbatim defaultArgs).2 rfl

/-- C5: the all-absent FilterOptions is the identity filter — applying it to
any non-empty Connection sequence returns the identical sequence, same order
and same length. -/
theorem C5_identity_filter (cs : List Connection) (hne : cs ≠ []) :
    filter_connections no_filter_options cs = cs ∧
    (filter_connections no_filter_options cs).length = cs.length := by
  have h : filter_connections no_filter_options cs = cs :=
    List.filter_eq_self.mpr (fun c _ => rfl)
  exact ⟨h, by rw [h]⟩

/-- C5 witness: the identity filter on a concrete two-element sequence. -/
theorem C5_witness :
    filter_connections no_filter_options [connSshd, connNoPid] =
      [connSshd, connNoPid] ∧
    (filter_connections no_filter_options [connSshd, connNoPid]).length =
      [connSshd, connNoPid].length :=
  C5_identity_filter [connSshd, connNoPid] (by decide)

/-- Characterisation of the hex-digit test on character codes. -/
theorem is_hex_digit_iff {c : Char} :
    is_hex_digit c = true ↔
      (48 ≤ c.toNat ∧ c.toNat ≤ 57) ∨ (65 ≤ c.toNat ∧ c.toNat ≤ 70) := by
  simp [is_hex_digit, Bool.or_eq_true, Bool.and_eq_true, decide_eq_true_iff]

/-- A hex digit has value below 16. -/
theorem hex_val_lt {c : Char} (h : is_hex_digit c = true) : hex_val c < 16 := by
  rcases is_hex_digit_iff.mp h with ⟨h1, h2⟩ | ⟨h1, h2⟩ <;>
    unfold hex_val <;> split <;> omega

/-- Rendering the value of a hex digit gives back the digit. -/
theorem hex_digit_char_hex_val {c : Char} (h : is_hex_digit c = true) :
    hex_digit_char (hex_val c) = c := by
  rcases is_hex_digit_iff.mp h with ⟨h1, h2⟩ | ⟨h1, h2⟩
  · have hv : hex_val c = c.toNat - 48 := by simp [hex_val, h2]
    rw [hv, hex_digit_char, if_pos (by omega : c.toNat - 48 < 10)]
    have he : 48 + (c.toNat - 48) = c.toNat := by omega
    rw [he, Char.ofNat_toNat]
  · have hv : hex_val c = c.toNat - 55 := by
      have hn : ¬ (c.toNat ≤ 57) := by omega
      simp [hex_val, hn]
    rw [hv, hex_digit_char, if_neg (by omega : ¬ (c.toNat - 55 < 10))]
    have he : 55 + (c.toNat - 55) = c.toNat := by omega
    rw [he, Char.ofNat_toNat]

/-- A field of hex digits parses to a bounded value whose fixed-width
rendering is the original field. -/
theorem hex_to_nat_round (l : List Char) (h : ∀ c ∈ l, is_hex_digit c = true) :
    ∃ v, hex_to_nat l = some v ∧ v < 16 ^ l.length ∧ nat_to_hex l.length v = l := by
  induction l using List.reverseRecOn with
  | nil => exact ⟨0, rfl, by norm_num, rfl⟩
  | append_singleton l c ih =>
    obtain ⟨v, hv, hlt, hrt⟩ := ih (fun x hx => h x (List.mem_append_left _ hx))
    have hc : is_hex_digit c = true :=
      h c (List.mem_append_right _ (List.mem_singleton_self c))
    have hvc : hex_val c < 16 := hex_val_lt hc
    refine ⟨16 * v + hex_val c, ?_, ?_, ?_⟩
    · simp only [hex_to_nat] at hv ⊢
      simp [List.foldl_append, hv, hc]
    · simp only [List.length_append, List.length_singleton, pow_succ]
      generalize 16 ^ l.length = x at hlt ⊢
      omega
    · have hd : (16 * v + hex_val c) / 16 = v := by omega
      have hm : (16 * v + hex_val c) % 16 = hex_val c := by omega
      simp only [List.length_append, List.length_singleton, nat_to_hex, hd, hm,
        hex_digit_char_hex_val hc, hrt]

/-- C6: decoding a table-row field then re-encoding it yields the original
bytes, for the IPv4 address encoding, the IPv6 address encoding and the port
encoding; and the endpoint 0100007F:1F90 decodes to local address 127.0.0.1
and port 8080. -/
theorem C6_round_trip_decode :
    (∀ s : String, s.data.length = 8 → (∀ c ∈ s.data, is_hex_digit c = true) →
      ∃ b, decode_ipv4 s = some b ∧ encode_ipv4 b = s) ∧
    (∀ s : String, s.data.length = 32 → (∀ c ∈ s.data, is_hex_digit c = true) →
      ∃ w, decode_ipv6 s = some w ∧ encode_ipv6 w = s) ∧
    (∀ s : String, s.data.length = 4 → (∀ c ∈ s.data, is_hex_digit c = true) →
      ∃ n, decode_port s = some n ∧ encode_port n = s) ∧
    decode_endpoint AddressFamily.v4 "0100007F:1F90" =
      some ("127.0.0.1", 8080) := by
  refine ⟨?_, ?_, ?_, by decide⟩
  · intro s hlen hhex
    obtain ⟨v, hv, hlt, hrt⟩ := hex_to_nat_round s.data hhex
    rw [hlen] at hlt hrt
    refine ⟨(v % 256, v / 256 % 256, v / 65536 % 256, v / 16777216 % 256), ?_, ?_⟩
    · unfold decode_ipv4
      rw [if_pos hlen, hv]
    · show String.mk (nat_to_hex 8 (word_le (v % 256) (v / 256 % 256)
        (v / 65536 % 256) (v / 16777216 % 256))) = s
      have hb : v < 4294967296 := by norm_num at hlt; omega
      have hw : word_le (v % 256) (v / 256 % 256) (v / 65536 % 256)
          (v / 16777216 % 256) = v := by unfold word_le; omega
      rw [hw, hrt]
  · intro s hlen hhex
    obtain ⟨v0, hv0, hlt0, hrt0⟩ :=
      hex_to_nat_round (s.data.take 8) (fun c hc => hhex c (List.take_subset _ _ hc))
    obtain ⟨v1, hv1, hlt1, hrt1⟩ :=
      hex_to_nat_round ((s.data.drop 8).take 8)
        (fun c hc => hhex c (List.drop_subset _ _ (List.take_subset _ _ hc)))
    obtain ⟨v2, hv2, hlt2, hrt2⟩ :=
      hex_to_nat_round ((s.data.drop 16).take 8)
        (fun c hc => hhex c (List.drop_subset _ _ (List.take_subset _ _ hc)))
    obtain ⟨v3, hv3, hlt3, hrt3⟩ :=
      hex_to_nat_round (s.data.drop 24) (fun c hc => hhex c (List.drop_subset _ _ hc))
    have hl0 : (s.data.take 8).length = 8 := by simp [List.length_take, hlen]
    have hl1 : ((s.data.drop 8).take 8).length = 8 := by
      simp [List.length_take, List.length_drop, hlen]
    have hl2 : ((s.data.drop 16).take 8).length = 8 := by
      simp [List.length_take, List.length_drop, hlen]
    have hl3 : (s.data.drop 24).length = 8 := by simp [List.length_drop, hlen]
    rw [hl0] at hlt0 hrt0
    rw [hl1] at hlt1 hrt1
    rw [hl2] at hlt2 hrt2
    rw [hl3] at hlt3 hrt3
    have hb0 : v0 < 4294967296 := by norm_num at hlt0; omega
    have hb1 : v1 < 4294967296 := by norm_num at hlt1; omega
    have hb2 : v2 < 4294967296 := by norm_num at hlt2; omega
    have hb3 : v3 < 4294967296 := by norm_num at hlt3; omega
    refine ⟨bytes_le v0 ++ bytes_le v1 ++ bytes_le v2 ++ bytes_le v3, ?_, ?_⟩
    · unfold decode_ipv6
      rw [if_pos hlen, hv0, hv1, hv2, hv3]
    · have hw0 : word_le (v0 % 256) (v0 / 256 % 256) (v0 / 65536 % 256)
          (v0 / 16777216 % 256) = v0 := by unfold word_le; omega
      have hw1 : word_le (v1 % 256) (v1 / 256 % 256) (v1 / 65536 % 256)
          (v1 / 16777216 % 256) = v1 := by unfold word_le; omega
      have hw2 : word_le (v2 % 256) (v2 / 256 % 256) (v2 / 65536 % 256)
          (v2 / 16777216 % 256) = v2 := by unfold word_le; omega
      have hw3 : word_le (v3 % 256) (v3 / 256 % 256) (v3 / 65536 % 256)
          (v3 / 16777216 % 256) = v3 := by unfold word_le; omega
      simp only [bytes_le, List.cons_append, List.nil_append, encode_ipv6,
        hw0, hw1, hw2, hw3, hrt0, hrt1, hrt2, hrt3]
      have hsplit : s.data.take 8 ++ ((s.data.drop 8).take 8 ++
          ((s.data.drop 16).take 8 ++ s.data.drop 24)) = s.data := by
        have e3 : (s.data.drop 16).take 8 ++ (s.data.drop 16).drop 8 =
            s.data.drop 16 := List.take_append_drop 8 _
        have e2 : (s.data.drop 8).take 8 ++ (s.data.drop 8).drop 8 =
            s.data.drop 8 := List.take_append_drop 8 _
        have e1 : s.data.take 8 ++ s.data.drop 8 = s.data :=
          List.take_append_drop 8 _
        have d1 : (s.data.drop 8).drop 8 = s.data.drop 16 := by
          rw [List.drop_drop]
        have d2 : (s.data.drop 16).drop 8 = s.data.drop 24 := by
          rw [List.drop_drop]
        rw [← d2, e3, ← d1, e2, e1]
      rw [List.append_assoc, List.append_assoc, hsplit]
  · intro s hlen hhex
    obtain ⟨v, hv, hlt, hrt⟩ := hex_to_nat_round s.data hhex
    rw [hlen] at hrt
    refine ⟨v, ?_, ?_⟩
    · unfold decode_port
      rw [if_pos hlen, hv]
    · unfold encode_port
      rw [hrt]

/-- C6 witness: concrete round trips for an IPv4 field, an IPv6 field and a
port field. -/
theorem C6_witness :
    (∃ b, decode_ipv4 "0100007F" = some b ∧ encode_ipv4 b = "0100007F") ∧
    (∃ w, decode_ipv6 "00000000000000000000000001000000" = some w ∧
      encode_ipv6 w = "00000000000000000000000001000000") ∧
    (∃ n, decode_port "1F90" = some n ∧ encode_port n = "1F90") ∧
    decode_endpoint AddressFamily.v4 "0100007F:1F90" =
      some ("127.0.0.1", 8080) := by
  have h := C6_round_trip_decode
  exact ⟨h.1 "0100007F" (by decide) (by decide),
    h.2.1 "00000000000000000000000001000000" (by decide) (by decide),
    h.2.2.1 "1F90" (by decide) (by decide), h.2.2.2⟩

/-- C7: the resolver returns exactly as many Connection values as it is given
SocketEntry values, in the same order, and an entry whose handle is absent
from the index is kept with empty pid and program fields. -/
theorem C7_resolver_never_drops (entries : List SocketEntry)
    (idx : ProcessSocketIndex) :
    (resolve_connections entries idx).length = entries.length ∧
    (∀ i : Nat, (resolve_connections entries idx)[i]? =
      (entries[i]?).map (resolve_entry idx)) ∧
    (∀ e : SocketEntry, lookup_handle idx e.handle = none →
      (resolve_entry idx e).pid = "" ∧ (resolve_entry idx e).program = "" ∧
      (resolve_entry idx e).proto = e.proto ∧
      (resolve_entry idx e).local_address = e.local_address ∧
      (resolve_entry idx e).local_port = e.local_port) := by
  refine ⟨by simp [resolve_connections], fun i => ?_, fun e h => ?_⟩
  · simp [resolve_connections, List.getElem?_map]
  · simp [resolve_entry, h]

/-- C7 witness: on two concrete entries, one attributed and one not, the
resolver keeps both rows and the unattributed one carries empty pid and
program. -/
theorem C7_witness :
    (resolve_connections [entrySsh, entryDns] idxSample).length = 2 ∧
    (resolve_entry idxSample entryDns).pid = "" ∧
    (resolve_entry idxSample entryDns).program = "" := by
  have h := C7_resolver_never_drops [entrySsh, entryDns] idxSample
  have h3 := h.2.2 entryDns (by decide)
  exact ⟨h.1.trans (by decide), h3.1, h3.2.1⟩

/-- C8: the engine always returns a (possibly empty) Connection set, and
every per-item failure is absorbed — a malformed row is skipped without
aborting the scan of the rest of its table, a process with an unreadable
descriptor table is skipped without affecting the rest of the index, and an
unmatched handle degrades to empty attribution with the row kept. -/
theorem C8_engine_never_aborts (tables : List RawTable) (procs : List ProcEntry)
    (opts : FilterOptions) :
    (∃ cs : List Connection, get_all_connections tables procs opts = cs) ∧
    (∀ proto family rows₁ rows₂ bad, parse_socket_row proto family bad = none →
      read_socket_table ⟨proto, family, rows₁ ++ bad :: rows₂⟩ =
        read_socket_table ⟨proto, family, rows₁ ++ rows₂⟩) ∧
    (∀ procs₁ procs₂ p, p.fds = none →
      build_index (procs₁ ++ p :: procs₂) = build_index (procs₁ ++ procs₂)) ∧
    (∀ e : SocketEntry, ∀ idx : ProcessSocketIndex,
      lookup_handle idx e.handle = none →
      (resolve_entry idx e).pid = "" ∧ (resolve_entry idx e).program = "") := by
  refine ⟨⟨_, rfl⟩, ?_, ?_, ?_⟩
  · intro proto family rows₁ rows₂ bad hbad
    simp [read_socket_table, List.filterMap_append, List.filterMap_cons, hbad]
  · intro procs₁ procs₂ p hp
    induction procs₁ with
    | nil => simp [build_index, hp]
    | cons q rest ih =>
      cases hq : q.fds <;> simp [build_index, hq, ih]
  · intro e idx h
    simp [resolve_entry, h]

/-- C8 witness: a malformed row, an unreadable process and an unmatched
handle, each absorbed at a concrete input. -/
theorem C8_witness :
    read_socket_table ⟨"tcp", AddressFamily.v4, [] ++ ["nonsense"] :: []⟩ =
      read_socket_table ⟨"tcp", AddressFamily.v4, [] ++ []⟩ ∧
    build_index ([] ++ ({ pid := "1", name := "init", fds := none } :
      ProcEntry) :: []) = build_index ([] ++ []) ∧
    (resolve_entry [] entryDns).pid = "" ∧
    (resolve_entry [] entryDns).program = "" := by
  have h := C8_engine_never_aborts [] [] no_filter_options
  exact ⟨h.2.1 "tcp" AddressFamily.v4 [] [] ["nonsense"] (by decide),
    h.2.2.1 [] [] _ rfl, h.2.2.2 entryDns [] rfl⟩

end Somo
